import Mathlib

/-!
BubbleLink web UI router (`webui/src/router/index.js`)

A shallow embedding of the router configuration: the static route table, the
`beforeEach` navigation guard, the browser storage the guard reads, and the
redirect resolution that composes the two.
-/

namespace BubbleLink.Router

/-! ## Data model -/

/-- The two lazily imported view components, `Login` and `MapView`. -/
inductive View where
  | Login
  | MapView
deriving DecidableEq

/-- The `meta` object of a route. A property the object does not carry reads
as `undefined` in JavaScript, which is `none` here. -/
structure RouteMeta where
  requiresAuth : Option Bool
  guestOnly : Option Bool
deriving DecidableEq

/-- One element of the `routes` array. Properties that an element leaves out
are `none`; a record without a `meta` property has the empty meta object. -/
structure RouteRecord where
  path : String
  name : Option String
  component : Option View
  redirect : Option String
  meta : RouteMeta
deriving DecidableEq

/-- A resolved route location, the shape of the guard's `to` and `_from`. -/
structure RouteLocation where
  path : String
  name : Option String
  meta : RouteMeta
deriving DecidableEq

/-- What the guard passes to `next`: nothing (`next()`), or a location given
by route name (`next({ name })`). -/
inductive NextArg where
  | proceed
  | toName (name : String)
deriving DecidableEq

/-- Browser storage (`localStorage`): string keys bound to string values. -/
abbrev Storage := List (String × String)

/-! ## The route table -/

/-- The meta object `{}` of a record that declares none. -/
def emptyMeta : RouteMeta := { requiresAuth := none, guestOnly := none }

/-- First element: `{ path: '/', redirect: '/map' }`. -/
def rootRoute : RouteRecord :=
  { path := "/", name := none, component := none, redirect := some "/map",
    meta := emptyMeta }

/-- Second element:
`{ path: '/login', name: 'login', component: Login, meta: { guestOnly: true } }`. -/
def loginRoute : RouteRecord :=
  { path := "/login", name := some "login", component := some View.Login,
    redirect := none, meta := { requiresAuth := none, guestOnly := some true } }

/-- Third element:
`{ path: '/map', name: 'map', component: MapView, meta: { requiresAuth: true } }`. -/
def mapRoute : RouteRecord :=
  { path := "/map", name := some "map", component := some View.MapView,
    redirect := none, meta := { requiresAuth := some true, guestOnly := none } }

/-- Fourth element: `{ path: '/:pathMatch(.*)*', redirect: '/map' }`. -/
def catchAllRoute : RouteRecord :=
  { path := "/:pathMatch(.*)*", name := none, component := none,
    redirect := some "/map", meta := emptyMeta }

/-- The `routes` array handed to `createRouter`, in source order. -/
def routes : List RouteRecord :=
  [rootRoute, loginRoute, mapRoute, catchAllRoute]

/-- The location a record gives when it is reached at a path: the record's
name and meta object. -/
def toLocation (path : String) (r : RouteRecord) : RouteLocation :=
  { path := path, name := r.name, meta := r.meta }

/-! ## The navigation guard -/

/-- JavaScript truthiness of a meta flag: `undefined` and `false` are falsy. -/
def truthy : Option Bool → Bool
  | some true => true
  | _ => false

/-- The call `localStorage.getItem(key)`: the value bound to the key, or `null`
(`none`) when the key is absent. A read: the storage is handed back as is. -/
def getItem (key : String) (st : Storage) : Option String × Storage :=
  (st.lookup key, st)

/-- The coercion `!!v` of what `getItem` returns: `null` and the empty string
are falsy, every other string is truthy. -/
def toBoolean : Option String → Bool
  | none => false
  | some v => v != ""

/-- The first statement of the guard,
`const authed = !!localStorage.getItem('bubble_user')`. -/
def authed (st : Storage) : Bool × Storage :=
  let r := getItem "bubble_user" st
  (toBoolean r.1, r.2)

/-- The callback registered with `router.beforeEach`: the argument it passes
to `next`, and the storage after it has run. The source's parameter `to` is
written `to_`. -/
def beforeEach (to_ _from : RouteLocation) (st : Storage) : NextArg × Storage :=
  let a := authed st
  if truthy to_.meta.requiresAuth && !a.1 then (NextArg.toName "login", a.2)
  else if truthy to_.meta.guestOnly && a.1 then (NextArg.toName "map", a.2)
  else (NextArg.proceed, a.2)

/-! ## Route resolution and redirects -/

/-- Modelled from the spec: the path matcher of the routing library, which is
third-party code outside the repository. A literal pattern matches the path
equal to it, and the catch-all pattern `/:pathMatch(.*)*` matches every path
(the table row "`/*` (any unmatched)"). -/
def matchesPath (pattern path : String) : Bool :=
  pattern == "/:pathMatch(.*)*" || pattern == path

/-- Modelled from the spec: resolution of a path against the route table, the
entries "evaluated in order, first match wins". -/
def resolvePath (path : String) : Option RouteRecord :=
  routes.find? (fun r => matchesPath r.path path)

/-- Modelled from the spec: resolution of a location given by route name (the
argument of `next({ name })`): the first record of the table with that name. -/
def resolveName (name : String) : Option RouteRecord :=
  routes.find? (fun r => r.name == some name)

/-- Where a navigation is headed: a path, or a route name. -/
inductive NavTarget where
  | byPath (path : String)
  | byName (name : String)
deriving DecidableEq

/-- One redirect taken during a navigation: by the `redirect` property of the
record matched for a path, or by the guard at a route. -/
inductive Hop where
  | record (pattern target : String)
  | guard (atPath name : String)
deriving DecidableEq

/-- How a navigation ends. -/
inductive NavResult where
  | final (route : RouteLocation) (hops : List Hop) (st : Storage)
  | notFound
  | tooManyRedirects
deriving DecidableEq

/-- Modelled from the spec: the record of the table a target resolves to, and
the path of the resulting location. -/
def resolve : NavTarget → Option (RouteRecord × String)
  | NavTarget.byPath p => (resolvePath p).map (fun r => (r, p))
  | NavTarget.byName n => (resolveName n).map (fun r => (r, r.path))

/-- Modelled from the spec: the navigation loop of the routing library, with
the policy of the design notes: a record redirect is followed before any
guard runs, the guard is run on every redirect target, and a redirect decided
by the guard starts over at its target, "until a stable, non-redirecting route
is reached". The fuel bounds the number of targets visited; `hops` collects
the redirects taken so far. -/
def navigate (_from : RouteLocation) :
    Nat → NavTarget → List Hop → Storage → NavResult
  | 0, _, _, _ => NavResult.tooManyRedirects
  | fuel + 1, target, hops, st =>
    match resolve target with
    | none => NavResult.notFound
    | some (r, p) =>
      match r.redirect with
      | some q => navigate _from fuel (NavTarget.byPath q) (hops ++ [Hop.record r.path q]) st
      | none =>
        match beforeEach (toLocation p r) _from st with
        | (NextArg.proceed, st1) => NavResult.final (toLocation p r) hops st1
        | (NextArg.toName n, st1) =>
          navigate _from fuel (NavTarget.byName n) (hops ++ [Hop.guard p n]) st1

/-- The location the router starts from, before any navigation. -/
def startLocation : RouteLocation := { path := "/", name := none, meta := emptyMeta }

/-! ## Properties of the guard -/

theorem getItem_snd (key : String) (st : Storage) : (getItem key st).2 = st := rfl

theorem authed_snd (st : Storage) : (authed st).2 = st := rfl

theorem authed_fst (st : Storage) :
    (authed st).1 = toBoolean (getItem "bubble_user" st).1 := rfl

/-- The guard written as one expression over the target's meta object and the
value of `authed`. -/
theorem beforeEach_eq (to_ _from : RouteLocation) (st : Storage) :
    beforeEach to_ _from st =
      (if truthy to_.meta.requiresAuth && !(authed st).1 then NextArg.toName "login"
       else if truthy to_.meta.guestOnly && (authed st).1 then NextArg.toName "map"
       else NextArg.proceed, st) := by
  unfold beforeEach
  simp only [authed_snd]
  split_ifs <;> rfl

theorem truthy_eq_true_iff (f : Option Bool) : truthy f = true ↔ f = some true := by
  cases f with
  | none => simp [truthy]
  | some b => cases b <;> simp [truthy]

theorem mem_routes_iff (r : RouteRecord) :
    r ∈ routes ↔ r = rootRoute ∨ r = loginRoute ∨ r = mapRoute ∨ r = catchAllRoute := by
  simp [routes]

/-- C1: for every target whose meta has `requiresAuth` true, the guard run
without a session (`authed` false) passes `{ name: 'login' }` to `next`; the
table's record for `/map` is such a target, and the route named `login` is the
one at `/login`. -/
theorem guard_requiresAuth_without_session_redirects_login :
    (∀ (to_ _from : RouteLocation) (st : Storage),
      to_.meta.requiresAuth = some true → (authed st).1 = false →
      (beforeEach to_ _from st).1 = NextArg.toName "login") ∧
    (∀ r ∈ routes, r.path = "/map" → ∀ (_from : RouteLocation) (st : Storage),
      (authed st).1 = false →
      (beforeEach (toLocation r.path r) _from st).1 = NextArg.toName "login") ∧
    (∀ r ∈ routes, r.name = some "login" → r.path = "/login") := by
  have gen : ∀ (to_ _from : RouteLocation) (st : Storage),
      to_.meta.requiresAuth = some true → (authed st).1 = false →
      (beforeEach to_ _from st).1 = NextArg.toName "login" := by
    intro to_ _from st hreq hs
    simp [beforeEach_eq, hreq, hs, truthy]
  refine ⟨gen, ?_, ?_⟩
  · intro r hr hp _from st hs
    apply gen _ _ _ _ hs
    rcases (mem_routes_iff r).1 hr with h | h | h | h <;> subst h <;>
      first
        | rfl
        | exact absurd hp (by decide)
  · intro r hr hn
    rcases (mem_routes_iff r).1 hr with h | h | h | h <;> subst h <;>
      first
        | rfl
        | exact absurd hn (by decide)

/-- Witness for C1: the record `/map` of the table, reached from the start
location with empty storage. -/
theorem guard_requiresAuth_without_session_redirects_login_witness :
    (beforeEach (toLocation "/map" mapRoute) startLocation []).1 = NextArg.toName "login" ∧
    (beforeEach (toLocation mapRoute.path mapRoute) startLocation []).1
      = NextArg.toName "login" ∧
    loginRoute.path = "/login" :=
  ⟨guard_requiresAuth_without_session_redirects_login.1
      (toLocation "/map" mapRoute) startLocation [] rfl rfl,
   guard_requiresAuth_without_session_redirects_login.2.1
      mapRoute (by decide) rfl startLocation [] rfl,
   guard_requiresAuth_without_session_redirects_login.2.2
      loginRoute (by decide) rfl⟩

/-- C2: for every target whose meta has `guestOnly` true, the guard run with
a session (`authed` true) passes `{ name: 'map' }` to `next`; the table's
record for `/login` is such a target, and the route named `map` is the one at
`/map`. -/
theorem guard_guestOnly_with_session_redirects_map :
    (∀ (to_ _from : RouteLocation) (st : Storage),
      to_.meta.guestOnly = some true → (authed st).1 = true →
      (beforeEach to_ _from st).1 = NextArg.toName "map") ∧
    (∀ r ∈ routes, r.path = "/login" → ∀ (_from : RouteLocation) (st : Storage),
      (authed st).1 = true →
      (beforeEach (toLocation r.path r) _from st).1 = NextArg.toName "map") ∧
    (∀ r ∈ routes, r.name = some "map" → r.path = "/map") := by
  have gen : ∀ (to_ _from : RouteLocation) (st : Storage),
      to_.meta.guestOnly = some true → (authed st).1 = true →
      (beforeEach to_ _from st).1 = NextArg.toName "map" := by
    intro to_ _from st hg hs
    simp [beforeEach_eq, hg, hs, truthy]
  refine ⟨gen, ?_, ?_⟩
  · intro r hr hp _from st hs
    apply gen _ _ _ _ hs
    rcases (mem_routes_iff r).1 hr with h | h | h | h <;> subst h <;>
      first
        | rfl
        | exact absurd hp (by decide)
  · intro r hr hn
    rcases (mem_routes_iff r).1 hr with h | h | h | h <;> subst h <;>
      first
        | rfl
        | exact absurd hn (by decide)

/-- Witness for C2: the record `/login` of the table, with the session key
bound to a user name. -/
theorem guard_guestOnly_with_session_redirects_map_witness :
    (beforeEach (toLocation "/login" loginRoute) startLocation [("bubble_user", "ana")]).1
      = NextArg.toName "map" ∧
    (beforeEach (toLocation loginRoute.path loginRoute) startLocation
      [("bubble_user", "ana")]).1 = NextArg.toName "map" ∧
    mapRoute.path = "/map" :=
  ⟨guard_guestOnly_with_session_redirects_map.1
      (toLocation "/login" loginRoute) startLocation [("bubble_user", "ana")] rfl
      (by decide),
   guard_guestOnly_with_session_redirects_map.2.1
      loginRoute (by decide) rfl startLocation [("bubble_user", "ana")] (by decide),
   guard_guestOnly_with_session_redirects_map.2.2
      mapRoute (by decide) rfl⟩

/-- C3: whenever neither (`requiresAuth` and no session) nor (`guestOnly` and a
session) holds, the guard calls `next()` with no argument; so it does for the
table's `/map` record with a session and for its `/login` record without one. -/
theorem guard_otherwise_proceeds :
    (∀ (to_ _from : RouteLocation) (st : Storage),
      ¬ (to_.meta.requiresAuth = some true ∧ (authed st).1 = false) →
      ¬ (to_.meta.guestOnly = some true ∧ (authed st).1 = true) →
      (beforeEach to_ _from st).1 = NextArg.proceed) ∧
    (∀ r ∈ routes, r.path = "/map" → ∀ (_from : RouteLocation) (st : Storage),
      (authed st).1 = true →
      (beforeEach (toLocation r.path r) _from st).1 = NextArg.proceed) ∧
    (∀ r ∈ routes, r.path = "/login" → ∀ (_from : RouteLocation) (st : Storage),
      (authed st).1 = false →
      (beforeEach (toLocation r.path r) _from st).1 = NextArg.proceed) := by
  have gen : ∀ (to_ _from : RouteLocation) (st : Storage),
      ¬ (to_.meta.requiresAuth = some true ∧ (authed st).1 = false) →
      ¬ (to_.meta.guestOnly = some true ∧ (authed st).1 = true) →
      (beforeEach to_ _from st).1 = NextArg.proceed := by
    intro to_ _from st h1 h2
    rw [beforeEach_eq]
    rw [← truthy_eq_true_iff] at h1 h2
    cases ha : (authed st).1 <;> cases hr : truthy to_.meta.requiresAuth <;>
      cases hg : truthy to_.meta.guestOnly <;> simp_all
  refine ⟨gen, ?_, ?_⟩
  · intro r hr hp _from st hs
    apply gen
    · simp [hs]
    · rcases (mem_routes_iff r).1 hr with h | h | h | h <;> subst h <;>
        first
          | exact absurd hp (by decide)
          | simp [toLocation, mapRoute]
  · intro r hr hp _from st hs
    apply gen
    · rcases (mem_routes_iff r).1 hr with h | h | h | h <;> subst h <;>
        first
          | exact absurd hp (by decide)
          | simp [toLocation, loginRoute]
    · simp [hs]

/-- Witness for C3: a target without flags, `/map` with a session, `/login`
without one. -/
theorem guard_otherwise_proceeds_witness :
    (beforeEach (toLocation "/about" catchAllRoute) startLocation []).1 = NextArg.proceed ∧
    (beforeEach (toLocation mapRoute.path mapRoute) startLocation
      [("bubble_user", "ana")]).1 = NextArg.proceed ∧
    (beforeEach (toLocation loginRoute.path loginRoute) startLocation []).1
      = NextArg.proceed :=
  ⟨guard_otherwise_proceeds.1 (toLocation "/about" catchAllRoute) startLocation []
      (by decide) (by decide),
   guard_otherwise_proceeds.2.1 mapRoute (by decide) rfl startLocation
      [("bubble_user", "ana")] (by decide),
   guard_otherwise_proceeds.2.2 loginRoute (by decide) rfl startLocation [] rfl⟩

/-- C4, as stated, fails: with the key `bubble_user` bound to the empty string
the entry exists in storage, yet `authed` is false. -/
theorem authed_empty_string_counterexample :
    ((getItem "bubble_user" [("bubble_user", "")]).1).isSome = true ∧
    (authed [("bubble_user", "")]).1 = false := by
  decide

/-- C4, amended: `authed` is true exactly when storage binds the key
`bubble_user` to a string that is not empty. -/
theorem authed_iff_nonempty_entry (st : Storage) :
    (authed st).1 = true ↔
      ∃ v, (getItem "bubble_user" st).1 = some v ∧ v ≠ "" := by
  rw [authed_fst]
  cases h : (getItem "bubble_user" st).1 with
  | none => simp [toBoolean]
  | some v => simp [toBoolean]

/-- C8: the guard leaves browser storage exactly as it found it, and what it
passes to `next` depends only on the target's meta object and on `authed`: two
runs that agree on both give the same outcome, whatever the source routes. -/
theorem guard_reads_only :
    (∀ (to_ _from : RouteLocation) (st : Storage), (beforeEach to_ _from st).2 = st) ∧
    (∀ (to1 to2 from1 from2 : RouteLocation) (st1 st2 : Storage),
      to1.meta = to2.meta → (authed st1).1 = (authed st2).1 →
      (beforeEach to1 from1 st1).1 = (beforeEach to2 from2 st2).1) := by
  constructor
  · intro to_ _from st
    rw [beforeEach_eq]
  · intro to1 to2 from1 from2 st1 st2 hm hs
    rw [beforeEach_eq, beforeEach_eq, hm, hs]

/-- Witness for C8: the same target reached from two different source routes,
under two storages that differ and both hold a session. -/
theorem guard_reads_only_witness :
    (beforeEach (toLocation "/login" loginRoute) startLocation [("bubble_user", "ana")]).2
      = [("bubble_user", "ana")] ∧
    (beforeEach (toLocation "/login" loginRoute) startLocation [("bubble_user", "ana")]).1
      = (beforeEach (toLocation "/login" loginRoute) (toLocation "/map" mapRoute)
          [("theme", "dark"), ("bubble_user", "bob")]).1 :=
  ⟨guard_reads_only.1 (toLocation "/login" loginRoute) startLocation
      [("bubble_user", "ana")],
   guard_reads_only.2 (toLocation "/login" loginRoute) (toLocation "/login" loginRoute)
      startLocation (toLocation "/map" mapRoute) [("bubble_user", "ana")]
      [("theme", "dark"), ("bubble_user", "bob")] rfl (by decide)⟩

/-- C9: no entry of the route table has both `requiresAuth` and `guestOnly`
true: `/` and the catch-all set neither flag, `/login` sets only `guestOnly`,
`/map` sets only `requiresAuth`. -/
theorem routes_at_most_one_flag :
    (∀ r ∈ routes, ¬ (r.meta.requiresAuth = some true ∧ r.meta.guestOnly = some true)) ∧
    routes.map (fun r => (r.path, r.meta.requiresAuth, r.meta.guestOnly)) =
      [("/", none, none), ("/login", none, some true), ("/map", some true, none),
       ("/:pathMatch(.*)*", none, none)] := by
  constructor
  · intro r hr
    rcases (mem_routes_iff r).1 hr with h | h | h | h <;> subst h <;> decide
  · rfl

/-- Witness for C9: the `/map` entry. -/
theorem routes_at_most_one_flag_witness :
    ¬ (mapRoute.meta.requiresAuth = some true ∧ mapRoute.meta.guestOnly = some true) :=
  routes_at_most_one_flag.1 mapRoute (by decide)

/-! ## Properties of route resolution -/

theorem resolvePath_of_unmatched (p : String) (h1 : matchesPath "/" p = false)
    (h2 : matchesPath "/login" p = false) (h3 : matchesPath "/map" p = false) :
    resolvePath p = some catchAllRoute := by
  have h4 : matchesPath "/:pathMatch(.*)*" p = true := by simp [matchesPath]
  simp [resolvePath, routes, List.find?, rootRoute, loginRoute, mapRoute, catchAllRoute,
    h1, h2, h3, h4]

/-- A record redirect is followed without running the guard. -/
theorem navigate_record_redirect (_from : RouteLocation) (fuel : Nat) (p q : String)
    (r : RouteRecord) (hops : List Hop) (st : Storage)
    (hres : resolvePath p = some r) (hred : r.redirect = some q) :
    navigate _from (fuel + 1) (NavTarget.byPath p) hops st =
      navigate _from fuel (NavTarget.byPath q) (hops ++ [Hop.record r.path q]) st := by
  simp [navigate, resolve, hres, hred]

/-- Navigation to `/map`: final with a session, sent to `login` without. -/
theorem navigate_map (_from : RouteLocation) (fuel : Nat) (hops : List Hop) (st : Storage) :
    navigate _from (fuel + 2) (NavTarget.byPath "/map") hops st =
      if (authed st).1 then NavResult.final (toLocation "/map" mapRoute) hops st
      else NavResult.final (toLocation "/login" loginRoute)
        (hops ++ [Hop.guard "/map" "login"]) st := by
  have hm : resolvePath "/map" = some mapRoute := by decide
  have hl : resolveName "login" = some loginRoute := by decide
  cases ha : (authed st).1 <;>
    simp [navigate, resolve, hm, hl, beforeEach_eq, ha, mapRoute, loginRoute, toLocation,
      truthy]

/-- Navigation to `/login`: final without a session, sent to `map` with one. -/
theorem navigate_login (_from : RouteLocation) (fuel : Nat) (hops : List Hop) (st : Storage) :
    navigate _from (fuel + 2) (NavTarget.byPath "/login") hops st =
      if (authed st).1 then NavResult.final (toLocation "/map" mapRoute)
        (hops ++ [Hop.guard "/login" "map"]) st
      else NavResult.final (toLocation "/login" loginRoute) hops st := by
  have hm : resolveName "map" = some mapRoute := by decide
  have hl : resolvePath "/login" = some loginRoute := by decide
  cases ha : (authed st).1 <;>
    simp [navigate, resolve, hm, hl, beforeEach_eq, ha, mapRoute, loginRoute, toLocation,
      truthy]

/-- C5: a path that matches none of `/`, `/login`, `/map` is matched, first
match winning, by the fourth entry of the table, the catch-all
`/:pathMatch(.*)*`, whose redirect is `/map`; the navigation goes on to `/map`
whatever the storage holds. -/
theorem unregistered_path_redirects_to_map (p : String)
    (h1 : matchesPath "/" p = false) (h2 : matchesPath "/login" p = false)
    (h3 : matchesPath "/map" p = false) :
    resolvePath p = some catchAllRoute ∧
    routes.findIdx (fun r => matchesPath r.path p) = 3 ∧
    catchAllRoute.path = "/:pathMatch(.*)*" ∧
    catchAllRoute.redirect = some "/map" ∧
    ∀ (_from : RouteLocation) (fuel : Nat) (hops : List Hop) (st : Storage),
      navigate _from (fuel + 1) (NavTarget.byPath p) hops st =
        navigate _from fuel (NavTarget.byPath "/map")
          (hops ++ [Hop.record "/:pathMatch(.*)*" "/map"]) st := by
  have hres := resolvePath_of_unmatched p h1 h2 h3
  refine ⟨hres, ?_, rfl, rfl, ?_⟩
  · have e1 : ("/" == p) = false := by simpa [matchesPath] using h1
    have e2 : ("/login" == p) = false := by simpa [matchesPath] using h2
    have e3 : ("/map" == p) = false := by simpa [matchesPath] using h3
    simp [routes, List.findIdx_cons, rootRoute, loginRoute, mapRoute, catchAllRoute,
      e1, e2, e3, matchesPath]
  · intro _from fuel hops st
    exact navigate_record_redirect _from fuel p "/map" catchAllRoute hops st hres rfl

/-- Witness for C5: the path `/unknown/path`. -/
theorem unregistered_path_redirects_to_map_witness :
    resolvePath "/unknown/path" = some catchAllRoute ∧
    routes.findIdx (fun r => matchesPath r.path "/unknown/path") = 3 ∧
    catchAllRoute.path = "/:pathMatch(.*)*" ∧
    catchAllRoute.redirect = some "/map" ∧
    ∀ (_from : RouteLocation) (fuel : Nat) (hops : List Hop) (st : Storage),
      navigate _from (fuel + 1) (NavTarget.byPath "/unknown/path") hops st =
        navigate _from fuel (NavTarget.byPath "/map")
          (hops ++ [Hop.record "/:pathMatch(.*)*" "/map"]) st :=
  unregistered_path_redirects_to_map "/unknown/path" (by decide) (by decide) (by decide)

/-- C6: the path `/` is matched by the first entry of the table, which has no
view, no name and no meta flag, only the redirect to `/map`; the navigation
goes on to `/map` whatever the storage holds. -/
theorem root_path_redirects_to_map :
    resolvePath "/" = some rootRoute ∧
    rootRoute.component = none ∧ rootRoute.name = none ∧
    rootRoute.meta = { requiresAuth := none, guestOnly := none } ∧
    rootRoute.redirect = some "/map" ∧
    ∀ (_from : RouteLocation) (fuel : Nat) (hops : List Hop) (st : Storage),
      navigate _from (fuel + 1) (NavTarget.byPath "/") hops st =
        navigate _from fuel (NavTarget.byPath "/map")
          (hops ++ [Hop.record "/" "/map"]) st := by
  have hres : resolvePath "/" = some rootRoute := by decide
  refine ⟨hres, rfl, rfl, rfl, rfl, ?_⟩
  intro _from fuel hops st
  exact navigate_record_redirect _from fuel "/" "/map" rootRoute hops st hres rfl

/-- C7: with the key `bubble_user` absent from storage, a navigation to a path
that matches none of `/`, `/login`, `/map` takes two redirects, the catch-all
record's to `/map` and then the guard's at `/map` to `login`, and ends on the
route `login` at `/login`, where the guard lets it proceed. -/
theorem unregistered_path_without_key_ends_on_login (p : String)
    (h1 : matchesPath "/" p = false) (h2 : matchesPath "/login" p = false)
    (h3 : matchesPath "/map" p = false) (_from : RouteLocation) (fuel : Nat)
    (st : Storage) (hkey : (getItem "bubble_user" st).1 = none) :
    navigate _from (fuel + 3) (NavTarget.byPath p) [] st =
      NavResult.final { path := "/login", name := some "login", meta := loginRoute.meta }
        [Hop.record "/:pathMatch(.*)*" "/map", Hop.guard "/map" "login"] st ∧
    (beforeEach (toLocation "/map" mapRoute) _from st).1 = NextArg.toName "login" ∧
    (beforeEach (toLocation "/login" loginRoute) _from st).1 = NextArg.proceed := by
  have ha : (authed st).1 = false := by rw [authed_fst, hkey]; rfl
  refine ⟨?_, ?_, ?_⟩
  · rw [navigate_record_redirect _from (fuel + 2) p "/map" catchAllRoute [] st
      (resolvePath_of_unmatched p h1 h2 h3) rfl, navigate_map, ha]
    rfl
  · simp [beforeEach_eq, ha, toLocation, mapRoute, truthy]
  · simp [beforeEach_eq, ha, toLocation, loginRoute, truthy]

/-- Witness for C7: `/unknown/path` from the start location, storage holding
only an unrelated key. -/
theorem unregistered_path_without_key_ends_on_login_witness :
    navigate startLocation 3 (NavTarget.byPath "/unknown/path") [] [("theme", "dark")] =
      NavResult.final { path := "/login", name := some "login", meta := loginRoute.meta }
        [Hop.record "/:pathMatch(.*)*" "/map", Hop.guard "/map" "login"]
        [("theme", "dark")] ∧
    (beforeEach (toLocation "/map" mapRoute) startLocation [("theme", "dark")]).1
      = NextArg.toName "login" ∧
    (beforeEach (toLocation "/login" loginRoute) startLocation [("theme", "dark")]).1
      = NextArg.proceed :=
  unregistered_path_without_key_ends_on_login "/unknown/path" (by decide) (by decide)
    (by decide) startLocation 0 [("theme", "dark")] (by decide)

/-- C10: every navigation, from any requested path and under any storage, ends
within three visited targets on a final route after at most two redirects; the
final route is `map` when `authed` is true and `login` when it is false, its
record carries no redirect, the guard lets it proceed, and it is neither a
`requiresAuth` route without a session nor a `guestOnly` route with one. -/
theorem navigation_reaches_stable_route (p : String) (_from : RouteLocation)
    (fuel : Nat) (st : Storage) :
    ∃ (r : RouteRecord) (hops : List Hop),
      navigate _from (fuel + 3) (NavTarget.byPath p) [] st
        = NavResult.final (toLocation r.path r) hops st ∧
      hops.length ≤ 2 ∧
      r ∈ routes ∧ r.redirect = none ∧
      r.name = some (if (authed st).1 then "map" else "login") ∧
      (beforeEach (toLocation r.path r) _from st).1 = NextArg.proceed ∧
      ¬ (r.meta.requiresAuth = some true ∧ (authed st).1 = false) ∧
      ¬ (r.meta.guestOnly = some true ∧ (authed st).1 = true) := by
  have key : ∃ hops : List Hop,
      navigate _from (fuel + 3) (NavTarget.byPath p) [] st
        = (if (authed st).1 then NavResult.final (toLocation "/map" mapRoute) hops st
           else NavResult.final (toLocation "/login" loginRoute) hops st) ∧
      hops.length ≤ 2 := by
    by_cases hmap : p = "/map"
    · subst hmap
      rw [navigate_map]
      cases ha : (authed st).1
      · exact ⟨[Hop.guard "/map" "login"], by simp, by simp⟩
      · exact ⟨[], by simp, by simp⟩
    by_cases hlogin : p = "/login"
    · subst hlogin
      rw [navigate_login]
      cases ha : (authed st).1
      · exact ⟨[], by simp, by simp⟩
      · exact ⟨[Hop.guard "/login" "map"], by simp, by simp⟩
    have hstep : ∃ pat : String,
        navigate _from (fuel + 3) (NavTarget.byPath p) [] st =
          navigate _from (fuel + 2) (NavTarget.byPath "/map") [Hop.record pat "/map"] st := by
      by_cases hroot : p = "/"
      · subst hroot
        exact ⟨"/", navigate_record_redirect _from (fuel + 2) "/" "/map" rootRoute [] st
          (by decide) rfl⟩
      · have h1 : matchesPath "/" p = false := by
          simpa [matchesPath] using fun h => hroot h.symm
        have h2 : matchesPath "/login" p = false := by
          simpa [matchesPath] using fun h => hlogin h.symm
        have h3 : matchesPath "/map" p = false := by
          simpa [matchesPath] using fun h => hmap h.symm
        exact ⟨"/:pathMatch(.*)*", navigate_record_redirect _from (fuel + 2) p "/map"
          catchAllRoute [] st (resolvePath_of_unmatched p h1 h2 h3) rfl⟩
    obtain ⟨pat, hpat⟩ := hstep
    rw [hpat, navigate_map]
    cases ha : (authed st).1
    · exact ⟨[Hop.record pat "/map", Hop.guard "/map" "login"], by simp, by simp⟩
    · exact ⟨[Hop.record pat "/map"], by simp, by simp⟩
  obtain ⟨hops, hnav, hlen⟩ := key
  cases ha : (authed st).1
  · refine ⟨loginRoute, hops, ?_, hlen, by decide, rfl, rfl, ?_, by decide, by simp⟩
    · rw [hnav, ha]
      rfl
    · simp [beforeEach_eq, ha, toLocation, loginRoute, truthy]
  · refine ⟨mapRoute, hops, ?_, hlen, by decide, rfl, rfl, ?_, by simp, by decide⟩
    · rw [hnav, ha]
      rfl
    · simp [beforeEach_eq, ha, toLocation, mapRoute, truthy]

end BubbleLink.Router
